import Mathlib

/-!
Shallow embedding of the shoURLrt URL-shortening service core:
the short-code generation service (`src/lib/shortCodeGenerator`),
the Safe Browsing threat-check client (`src/lib/safeBrowsingClient.ts`)
with its rate limiter and circuit breaker, the creation endpoint
(`src/app/api/shorten/route.ts`) and the redirect endpoint
(`src/app/[shortId]/route.ts`).

Machine integers are modelled as `Nat` (JS numbers in these code paths are
small non-negative counters and millisecond timestamps); `Math.max(0, x - 1)`
coincides with truncated subtraction on `Nat`.  Fallible operations return
`Except`.  Platform primitives (the `URL` constructor, `crypto.randomBytes`,
`fetch`, the Supabase query) are parameters of the embedded functions.
-/

/-- `listPrefixOf pat hay` is true iff `pat` is a prefix of `hay`
(character-by-character comparison, as JS `String.prototype.startsWith`). -/
def listPrefixOf : List Char → List Char → Bool
  | [], _ => true
  | _ :: _, [] => false
  | a :: as, b :: bs => a == b && listPrefixOf as bs

/-- `containsSub pat hay` is true iff `pat` occurs contiguously in `hay`
(as JS `String.prototype.includes`). -/
def containsSub (pat : List Char) : List Char → Bool
  | [] => listPrefixOf pat []
  | c :: cs => listPrefixOf pat (c :: cs) || containsSub pat (cs)

/-- JS `msg.includes(pat)` on strings. -/
def containsStr (msg pat : String) : Bool :=
  containsSub pat.toList msg.toList

/-- Case-insensitive substring test: models a JS regex `/pat/i.test(s)` for a
pattern `pat` that is a plain lowercase literal string. -/
def containsCI (s pat : String) : Bool :=
  containsSub pat.toList (s.toList.map Char.toLower)

/-- JS `s.trim()` (kernel-computable form): strip leading and trailing
whitespace. -/
def trimStr (s : String) : String :=
  String.mk (((s.toList.dropWhile Char.isWhitespace).reverse.dropWhile
    Char.isWhitespace).reverse)

/-- JS `s.startsWith(pre)` (kernel-computable form). -/
def startsWithStr (s pre : String) : Bool :=
  listPrefixOf pre.toList s.toList

/-! ## Short Code Generation Service (`src/lib/shortCodeGenerator`) -/

def DEFAULT_CODE_LENGTH : Nat := 6
def MAX_CODE_LENGTH : Nat := 8
def MIN_CODE_LENGTH : Nat := 4
def MAX_RETRY_ATTEMPTS : Nat := 10
def CHARACTER_SET : String :=
  "ABCDEFGHIJKLMNOPQRSTUVWXYZabcdefghijklmnopqrstuvwxyz0123456789"

/-- The character set as a list of characters (`CHARACTER_SET[i]` indexing). -/
def charSetChars : List Char := CHARACTER_SET.toList

/-- The string built by `generateRandomCode`'s loop.  The secure random
source (`crypto.randomBytes`) is the parameter `bytes`: byte `i` of the
buffer is `bytes i`.  For each output position `i` the code combines two
bytes as `randomBytes[i*2] << 8 | randomBytes[i*2+1]` (equal to
`b0 * 256 + b1` for bytes) and reduces modulo the character-set size. -/
def rawCode (length : Nat) (bytes : Nat → Fin 256) : String :=
  String.mk ((List.range length).map (fun i =>
    charSetChars.getD (((bytes (i * 2)).val * 256 + (bytes (i * 2 + 1)).val)
      % charSetChars.length) 'A'))

/-- `generateRandomCode(length)`: reject lengths outside `[4, 8]`, otherwise
produce the random code. -/
def generateRandomCode (length : Nat) (bytes : Nat → Fin 256) :
    Except String String :=
  if length < MIN_CODE_LENGTH ∨ length > MAX_CODE_LENGTH then
    .error "Code length must be between 4 and 8 characters"
  else
    .ok (rawCode length bytes)

/-- Outcome of one Supabase existence query
(`.from('links').select(...).eq(...).single()`) as observed by
`isCodeExists`:  a row was found; no row (error code `PGRST116`); the client
returned an error object with another code; the awaited call threw an
exception with the given message; the admin client was unavailable. -/
inductive QueryOutcome where
  | found
  | notFound
  | dbError (msg : String)
  | thrown (msg : String)
  | noAdmin
deriving DecidableEq, Repr

/-- `isCodeExists(shortCode)`: maps the query outcome to the boolean
"code exists" or to the error message the function throws. -/
def isCodeExists (q : QueryOutcome) : Except String Bool :=
  match q with
  | .noAdmin => .error "Database connection not available. Missing service role key."
  | .found => .ok true
  | .notFound => .ok false
  | .dbError msg => .error ("Database query failed: " ++ msg)
  | .thrown msg =>
      if containsStr msg "Database query failed" then .error msg
      else if containsStr msg "Database connection not available" then .error msg
      else .error "Failed to check code existence"

/-- `ShortCodeResult` of the generation service. -/
structure ShortCodeResult where
  success : Bool
  shortCode : Option String
  error : Option String
  attempts : Nat
deriving DecidableEq, Repr

/-- Renders the `lastError` variable as it appears interpolated into the
exhaustion message (`undefined` when never set). -/
def renderLastError : Option String → String
  | none => "undefined"
  | some s => s

/-- The retry loop of `generateUniqueShortCode`.  `fuel` is the number of
remaining iterations (`maxRetries - attempts`), `attempts` the attempts
consumed so far.  `bytes k` is the random-byte buffer drawn on attempt `k`,
`query k` the store outcome of the existence query on attempt `k`
(attempts are numbered from 1). -/
def genLoop (length maxRetries : Nat) (bytes : Nat → Nat → Fin 256)
    (query : Nat → QueryOutcome) :
    Nat → Nat → Option String → ShortCodeResult
  | 0, attempts, lastError =>
      { success := false, shortCode := none,
        error := some ("Failed to generate unique short code after "
          ++ toString maxRetries ++ " attempts. Last error: "
          ++ renderLastError lastError),
        attempts := attempts }
  | fuel + 1, attempts, _lastError =>
      let attempts := attempts + 1
      match generateRandomCode length (bytes attempts) with
      | .error msg =>
          -- thrown by the generator, caught; not a database error message
          if containsStr msg "Database query failed"
              || containsStr msg "Database connection not available" then
            { success := false, shortCode := none,
              error := some ("Database error: " ++ msg), attempts := attempts }
          else genLoop length maxRetries bytes query fuel attempts (some msg)
      | .ok shortCode =>
          match isCodeExists (query attempts) with
          | .ok false =>
              { success := true, shortCode := some shortCode,
                error := none, attempts := attempts }
          | .ok true =>
              genLoop length maxRetries bytes query fuel attempts
                (some ("Code collision on attempt " ++ toString attempts))
          | .error msg =>
              if containsStr msg "Database query failed"
                  || containsStr msg "Database connection not available" then
                { success := false, shortCode := none,
                  error := some ("Database error: " ++ msg),
                  attempts := attempts }
              else
                genLoop length maxRetries bytes query fuel attempts (some msg)

/-- `generateUniqueShortCode(config)` with `length`/`maxRetries` already
defaulted, random source `bytes` and store behaviour `query` per attempt. -/
def generateUniqueShortCode (length maxRetries : Nat)
    (bytes : Nat → Nat → Fin 256) (query : Nat → QueryOutcome) :
    ShortCodeResult :=
  if length < MIN_CODE_LENGTH ∨ length > MAX_CODE_LENGTH then
    { success := false, shortCode := none,
      error := some ("Invalid code length. Must be between "
        ++ toString MIN_CODE_LENGTH ++ " and " ++ toString MAX_CODE_LENGTH
        ++ " characters."),
      attempts := 0 }
  else if maxRetries < 1 ∨ maxRetries > 100 then
    { success := false, shortCode := none,
      error := some "Invalid maxRetries. Must be between 1 and 100.",
      attempts := 0 }
  else
    genLoop length maxRetries bytes query maxRetries 0 none

/-! ## Safe Browsing client (`src/lib/safeBrowsingClient.ts`) -/

/-- A `SafeBrowsingError`: human-readable message plus machine code. -/
structure SBError where
  message : String
  code : String
deriving DecidableEq, Repr

/-- One entry of the API response's `matches` array (the fields the client
reads: `threatType`, `platformType`, `threat.url`, `cacheDuration`). -/
structure ThreatMatch where
  threatType : String
  platformType : String
  threatUrl : String
  cacheDuration : Option String
deriving DecidableEq, Repr

/-- The parsed JSON body of a successful API response; `matchList` models the
`matches` field, absent (`none`) when the server returned no such field. -/
structure SBResponse where
  matchList : Option (List ThreatMatch)
deriving DecidableEq, Repr

/-- One element of a result's `threats` array. -/
structure ThreatInfo where
  threatType : String
  platform : String
  description : String
deriving DecidableEq, Repr

/-- `ThreatDetectionResult`; times are millisecond timestamps. -/
structure ThreatDetectionResult where
  url : String
  isSafe : Bool
  threats : List ThreatInfo
  checkedAt : Nat
  cacheExpiresAt : Option Nat
deriving DecidableEq, Repr

/-- `getThreatDescription(threatType)`: fixed lookup table with the
"Unknown threat type" fallback. -/
def getThreatDescription (threatType : String) : String :=
  if threatType = "MALWARE" then
    "Malicious software that can harm your device"
  else if threatType = "SOCIAL_ENGINEERING" then
    "Deceptive content designed to trick users"
  else if threatType = "UNWANTED_SOFTWARE" then
    "Software that may be unwanted or harmful"
  else if threatType = "POTENTIALLY_UNWANTED_APPLICATION" then
    "Application that may exhibit unwanted behavior"
  else "Unknown threat type"

/-- The regex `^(\d+)s$`: all-digit body followed by a single `s`.
Returns the captured integer when the string matches. -/
def parseSecondsFormat (duration : String) : Option Nat :=
  let cs := duration.toList
  match cs.getLast? with
  | some 's' =>
      let digits := cs.dropLast
      if digits ≠ [] ∧ digits.all Char.isDigit then
        some (digits.foldl (fun acc c => acc * 10 + (c.toNat - '0'.toNat)) 0)
      else none
  | _ => none

/-- `parseCacheDuration(duration)`: milliseconds, defaulting to one hour when
the duration string does not match `^(\d+)s$`. -/
def parseCacheDuration (duration : String) : Nat :=
  match parseSecondsFormat duration with
  | some n => n * 1000
  | none => 3600000

/-- The `urlThreats` list of `parseResponse`'s per-URL callback: the matches
whose `threat.url` equals this URL. -/
def urlThreatsFor (url : String) (response : SBResponse) : List ThreatMatch :=
  (response.matchList.getD []).filter (fun m => m.threatUrl == url)

/-- The `result` object built by `parseResponse`'s per-URL callback before
the optional `cacheExpiresAt` assignment. -/
def baseResult (url : String) (response : SBResponse) (now : Nat) :
    ThreatDetectionResult :=
  { url := url,
    isSafe := (urlThreatsFor url response).length == 0,
    threats := (urlThreatsFor url response).map (fun m =>
      { threatType := m.threatType, platform := m.platformType,
        description := getThreatDescription m.threatType }),
    checkedAt := now,
    cacheExpiresAt := none }

/-- The per-URL body of `parseResponse`'s `urls.map(...)` callback:
filter the matches whose `threat.url` equals this URL, derive `isSafe`,
`threats` and the optional `cacheExpiresAt` from the first match. -/
def mkThreatResult (url : String) (response : SBResponse) (now : Nat) :
    ThreatDetectionResult :=
  match urlThreatsFor url response with
  | [] => baseResult url response now
  | m :: _ =>
      match m.cacheDuration with
      | some d => { baseResult url response now with
                    cacheExpiresAt := some (now + parseCacheDuration d) }
      | none => baseResult url response now

/-- `parseResponse(urls, response)`: one result per requested URL, in order. -/
def parseResponse (urls : List String) (response : SBResponse) (now : Nat) :
    List ThreatDetectionResult :=
  urls.map (fun url => mkThreatResult url response now)

/-- `sanitizeUrl(url)`: reject empty input, trim, prefix `http://` when no
scheme is present, then check parsability.  `parseOk s` models whether
`new URL(s)` succeeds. -/
def sanitizeUrl (parseOk : String → Bool) (url : String) :
    Except SBError String :=
  if url = "" then .error { message := "Invalid URL provided", code := "INVALID_URL" }
  else
    let url := trimStr url
    let url :=
      if startsWithStr url "http://" || startsWithStr url "https://" then url
      else "http://" ++ url
    if parseOk url then .ok url
    else .error { message := "Invalid URL format: " ++ url, code := "INVALID_URL_FORMAT" }

/-- `RateLimitInfo` (millisecond timestamps). -/
structure RateLimitInfo where
  remaining : Nat
  resetTime : Nat
  limit : Nat
deriving DecidableEq, Repr

/-- Circuit-breaker states. -/
inductive CBState where
  | closedS
  | openS
  | halfOpenS
deriving DecidableEq, Repr

/-- `CircuitBreakerInfo`. -/
structure CircuitBreakerInfo where
  state : CBState
  failureCount : Nat
  lastFailureTime : Option Nat
  nextAttemptTime : Option Nat
deriving DecidableEq, Repr

/-- The client's mutable instance state. -/
structure ClientState where
  rateLimitInfo : RateLimitInfo
  circuitBreaker : CircuitBreakerInfo
deriving DecidableEq, Repr

/-- The constructor's initial rate-limit info (now + one minute). -/
def initialRateLimitInfo (now : Nat) : RateLimitInfo :=
  { remaining := 1000, resetTime := now + 60000, limit := 1000 }

/-- The constructor's initial circuit breaker. -/
def initialCircuitBreaker : CircuitBreakerInfo :=
  { state := .closedS, failureCount := 0,
    lastFailureTime := none, nextAttemptTime := none }

/-- `updateRateLimitInfo()`: decrement `remaining` (floored at 0), then reset
the window if `now > resetTime`. -/
def updateRateLimitInfo (rl : RateLimitInfo) (now : Nat) : RateLimitInfo :=
  let rl := { rl with remaining := rl.remaining - 1 }
  if now > rl.resetTime then
    { rl with remaining := rl.limit, resetTime := now + 60000 }
  else rl

/-- JS `Math.ceil(waitTime / 1000)` where `waitTime = resetTime - now` may be
negative. -/
def ceilWaitSeconds (resetTime now : Nat) : Int :=
  -((-(( resetTime : Int) - (now : Int))).fdiv 1000)

/-- `checkRateLimit()`: throw `RATE_LIMIT_EXCEEDED` when no budget remains. -/
def checkRateLimit (rl : RateLimitInfo) (now : Nat) : Except SBError Unit :=
  if rl.remaining ≤ 0 then
    .error { message := "Rate limit exceeded. Try again in "
               ++ toString (ceilWaitSeconds rl.resetTime now) ++ " seconds",
             code := "RATE_LIMIT_EXCEEDED" }
  else .ok ()

/-- `checkCircuitBreaker()`: when OPEN and the cool-down has not elapsed,
throw `CIRCUIT_BREAKER_OPEN`; when OPEN otherwise, move to HALF_OPEN. -/
def checkCircuitBreaker (cb : CircuitBreakerInfo) (now : Nat) :
    Except SBError CircuitBreakerInfo :=
  match cb.state with
  | .openS =>
      match cb.nextAttemptTime with
      | some t =>
          if now < t then
            .error { message := "Service temporarily unavailable due to repeated failures",
                     code := "CIRCUIT_BREAKER_OPEN" }
          else .ok { cb with state := .halfOpenS }
      | none => .ok { cb with state := .halfOpenS }
  | _ => .ok cb

/-- `handleCircuitBreakerFailure()`: count the failure; open the circuit at
five, with the next attempt one minute ahead. -/
def handleCircuitBreakerFailure (cb : CircuitBreakerInfo) (now : Nat) :
    CircuitBreakerInfo :=
  let cb := { cb with failureCount := cb.failureCount + 1,
                      lastFailureTime := some now }
  if cb.failureCount ≥ 5 then
    { cb with state := .openS, nextAttemptTime := some (now + 60000) }
  else cb

/-- `resetCircuitBreaker()`. -/
def resetCircuitBreaker : CircuitBreakerInfo :=
  { state := .closedS, failureCount := 0,
    lastFailureTime := none, nextAttemptTime := none }

/-- Outcome of the `fetch` dispatch inside `makeApiCall`: the fetch itself
threw (network error / timeout); the response arrived with a non-ok HTTP
status; or an ok response with the given parsed body. -/
inductive NetOutcome where
  | netFail (msg : String)
  | httpFail (status : Nat) (statusText : String) (body : String)
  | ok (resp : SBResponse)
deriving DecidableEq, Repr

/-- True when the network call or response handling failed. -/
def netFailed : NetOutcome → Bool
  | .ok _ => false
  | _ => true

/-- Errors escaping `makeApiCall`: either a `SafeBrowsingError` thrown by the
client itself or a raw exception (later wrapped by `checkUrls`). -/
inductive CallError where
  | sbe (e : SBError)
  | raw (msg : String)
deriving DecidableEq, Repr

/-- `makeApiCall(request)`: dispatch `fetch`; on return (ok or not) run
`updateRateLimitInfo`; non-ok statuses become `API_REQUEST_FAILED`.  When the
fetch itself throws, the rate-limit update is never reached. -/
def makeApiCall (rl : RateLimitInfo) (now : Nat) (net : NetOutcome) :
    Except CallError SBResponse × RateLimitInfo :=
  match net with
  | .netFail msg => (.error (.raw msg), rl)
  | .httpFail status statusText body =>
      (.error (.sbe { message := "API request failed: " ++ toString status
                        ++ " " ++ statusText ++ " - " ++ body,
                      code := "API_REQUEST_FAILED" }),
       updateRateLimitInfo rl now)
  | .ok resp => (.ok resp, updateRateLimitInfo rl now)

/-- The `catch` clause of `checkUrls`: re-throw `SafeBrowsingError`s, wrap
anything else as `API_ERROR`. -/
def normalizeCallError : CallError → SBError
  | .sbe e => e
  | .raw msg => { message := "Failed to check URLs: " ++ msg, code := "API_ERROR" }

/-- JS `array.map(f)` for a callback that may throw: the first exception
propagates, otherwise the list of results is returned. -/
def mapExcept (f : α → Except ε β) : List α → Except ε (List β)
  | [] => .ok []
  | a :: as =>
      match f a with
      | .error e => .error e
      | .ok b =>
          match mapExcept f as with
          | .error e => .error e
          | .ok bs => .ok (b :: bs)

/-- The observable outcome of one `checkUrls` call: the returned value or
thrown error, the instance state afterwards, and whether the network was
dispatched. -/
structure StepOut where
  result : Except SBError (List ThreatDetectionResult)
  state : ClientState
  networkCalled : Bool
deriving Repr

/-- One `checkUrls(urls)` call, with `maxUrlsPerRequest` from the config
(500 after constructor defaulting), platform URL parser `parseOk`, instance
state `st`, current time `now` and network behaviour `net`. -/
def checkUrls (maxUrlsPerRequest : Nat) (parseOk : String → Bool)
    (st : ClientState) (now : Nat) (urls : List String) (net : NetOutcome) :
    StepOut :=
  if urls.length = 0 then
    { result := .error { message := "No URLs provided for checking",
                         code := "INVALID_INPUT" },
      state := st, networkCalled := false }
  else if urls.length > maxUrlsPerRequest then
    { result := .error { message := "Too many URLs. Maximum "
                           ++ toString maxUrlsPerRequest ++ " allowed per request",
                         code := "TOO_MANY_URLS" },
      state := st, networkCalled := false }
  else
    match checkCircuitBreaker st.circuitBreaker now with
    | .error e => { result := .error e, state := st, networkCalled := false }
    | .ok cb =>
        let st : ClientState := { st with circuitBreaker := cb }
        match checkRateLimit st.rateLimitInfo now with
        | .error e => { result := .error e, state := st, networkCalled := false }
        | .ok _ =>
            match mapExcept (sanitizeUrl parseOk) urls with
            | .error e => { result := .error e, state := st, networkCalled := false }
            | .ok sanitizedUrls =>
                match makeApiCall st.rateLimitInfo now net with
                | (.error ce, rl) =>
                    { result := .error (normalizeCallError ce),
                      state := { rateLimitInfo := rl,
                                 circuitBreaker :=
                                   handleCircuitBreakerFailure st.circuitBreaker now },
                      networkCalled := true }
                | (.ok resp, rl) =>
                    { result := .ok (parseResponse sanitizedUrls resp now),
                      state := { rateLimitInfo := rl,
                                 circuitBreaker := resetCircuitBreaker },
                      networkCalled := true }

/-! ## Creation endpoint (`src/app/api/shorten/route.ts`) -/

/-- What `new URL(s)` exposes of a parsed URL that these handlers read:
`origin` and `protocol` (the scheme with its trailing colon). -/
structure UrlParts where
  origin : String
  protocol : String
deriving DecidableEq, Repr

/-- `isValidUrl(url)`: non-blank and parseable with an http(s) protocol.
`parse s` models `new URL(s)` (`none` = the constructor throws). -/
def isValidUrl (parse : String → Option UrlParts) (url : String) : Bool :=
  if trimStr url = "" then false
  else
    match parse url with
    | some u => u.protocol == "http:" || u.protocol == "https:"
    | none => false

/-- The `suspiciousPatterns` blocklist (each regex `/pat/i` body). -/
def suspiciousPatterns : List String :=
  ["javascript:", "data:", "vbscript:", "file:", "ftp:"]

/-- `isSecureUrl(url, requestOrigin)`: reject same-origin URLs and URLs whose
*string* matches any blocklist regex (case-insensitively, anywhere in the
string); unparseable URLs are rejected. -/
def isSecureUrl (parse : String → Option UrlParts) (url requestOrigin : String) :
    Bool :=
  match parse url with
  | none => false
  | some u =>
      if u.origin == requestOrigin then false
      else !(suspiciousPatterns.any (fun pat => containsCI url pat))

/-- The observable outcome of one `POST /api/shorten` call: HTTP status and
the JSON body's `success`, `shortUrl`, `shortCode` fields. -/
structure PostOut where
  status : Nat
  success : Bool
  shortUrl : Option String
  shortCode : Option String
deriving DecidableEq, Repr

/-- The `POST` handler of `/api/shorten`.  Parameters model the
collaborators: `parse` the platform URL parser, `rateLimited` the per-IP
limiter verdict, `url` the request body's `url` field (`none` when absent),
`requestOrigin` the request's origin header, `baseUrl` `request.nextUrl.origin`,
`adminOk` availability of the admin DB client, `codeResult` the value returned
by `generateUniqueShortCode({ length: 6 })`, and `insertError` the error of
the store insert (`none` = insert succeeded).  The handler consults no
threat-check collaborator: its result does not depend on any threat verdict. -/
def shortenPOST (parse : String → Option UrlParts) (rateLimited : Bool)
    (url : Option String) (requestOrigin baseUrl : String) (adminOk : Bool)
    (codeResult : ShortCodeResult) (insertError : Option String) : PostOut :=
  if rateLimited then
    { status := 429, success := false, shortUrl := none, shortCode := none }
  else
    match url with
    | none => { status := 400, success := false, shortUrl := none, shortCode := none }
    | some u =>
        if trimStr u = "" then
          { status := 400, success := false, shortUrl := none, shortCode := none }
        else if ¬ isValidUrl parse u then
          { status := 400, success := false, shortUrl := none, shortCode := none }
        else if ¬ isSecureUrl parse u requestOrigin then
          { status := 400, success := false, shortUrl := none, shortCode := none }
        else if ¬ adminOk then
          { status := 500, success := false, shortUrl := none, shortCode := none }
        else if ¬ codeResult.success ∨ codeResult.shortCode.getD "" = "" then
          -- `!codeResult.success || !codeResult.shortCode` (falsy: absent or "")
          { status := 500, success := false, shortUrl := none, shortCode := none }
        else
          let code := codeResult.shortCode.getD ""
          match insertError with
          | some _ =>
              { status := 500, success := false,
                shortUrl := none, shortCode := none }
          | none =>
              { status := 200, success := true,
                shortUrl := some (baseUrl ++ "/" ++ code),
                shortCode := some code }

/-! ## Redirect endpoint (`src/app/[shortId]/route.ts`) -/

/-- Outcome of the lookup `.from('links').select('long_url, click_count')
.eq('short_code', shortId).single()`: a row with its `long_url` (possibly the
empty string, which is falsy in JS), the `PGRST116` not-found error, or
another database error. -/
inductive LookupOutcome where
  | row (longUrl : String)
  | notFoundErr
  | dbErr (msg : String)
deriving DecidableEq, Repr

/-- The observable outcome of one `GET /{shortId}` call: HTTP status, the
redirect target when a redirect response is issued, and whether the
fire-and-forget click-count increment was dispatched. -/
structure RedirectOut where
  status : Nat
  redirectTo : Option String
  incrementAttempted : Bool
deriving DecidableEq, Repr

/-- The `GET` handler of `/{shortId}`.  `validUrl s` models whether
`new URL(s)` succeeds on the stored URL; `adminOk` the admin client's
availability; `lookup` the store's answer for this code. -/
def redirectGET (validUrl : String → Bool) (adminOk : Bool)
    (shortId : String) (lookup : LookupOutcome) : RedirectOut :=
  if shortId.length < 4 ∨ shortId.length > 8 then
    { status := 400, redirectTo := none, incrementAttempted := false }
  else if ¬ adminOk then
    { status := 503, redirectTo := none, incrementAttempted := false }
  else
    match lookup with
    | .notFoundErr =>
        { status := 404, redirectTo := none, incrementAttempted := false }
    | .dbErr _ =>
        { status := 500, redirectTo := none, incrementAttempted := false }
    | .row longUrl =>
        if longUrl = "" then
          { status := 404, redirectTo := none, incrementAttempted := false }
        else if ¬ validUrl longUrl then
          { status := 500, redirectTo := none, incrementAttempted := false }
        else
          { status := 307, redirectTo := some longUrl, incrementAttempted := true }

/-! ## Helper lemmas -/

lemma charSetChars_length : charSetChars.length = 62 := by decide

lemma getD_mod_mem (n : Nat) :
    charSetChars.getD (n % charSetChars.length) 'A' ∈ charSetChars := by
  have hpos : 0 < charSetChars.length := by rw [charSetChars_length]; omega
  have hlt : n % charSetChars.length < charSetChars.length := Nat.mod_lt _ hpos
  rw [List.getD_eq_getElem _ _ hlt]
  exact List.getElem_mem hlt

/-- `rawCode` has the requested length and draws from the alphabet. -/
lemma rawCode_length (length : Nat) (bytes : Nat → Fin 256) :
    (rawCode length bytes).length = length := by
  show ((List.range length).map _).length = length
  simp

lemma rawCode_alphabet (length : Nat) (bytes : Nat → Fin 256) :
    ∀ c ∈ (rawCode length bytes).toList, c ∈ charSetChars := by
  intro c hc
  have : c ∈ (List.range length).map (fun i =>
      charSetChars.getD (((bytes (i * 2)).val * 256 + (bytes (i * 2 + 1)).val)
        % charSetChars.length) 'A') := hc
  simp only [List.mem_map] at this
  obtain ⟨i, _, rfl⟩ := this
  exact getD_mod_mem _

/-- `generateRandomCode` succeeds exactly on valid lengths. -/
lemma generateRandomCode_ok {length : Nat} (bytes : Nat → Fin 256)
    (h : ¬(length < MIN_CODE_LENGTH ∨ length > MAX_CODE_LENGTH)) :
    generateRandomCode length bytes = .ok (rawCode length bytes) := by
  simp [generateRandomCode, h]

/-- C7: for every length in `[4, 8]` and every state of the random source,
`generateRandomCode` returns a string of exactly that length whose characters
all come from the 62-character alphanumeric alphabet. -/
theorem generateRandomCode_length_and_alphabet (length : Nat)
    (bytes : Nat → Fin 256)
    (h1 : MIN_CODE_LENGTH ≤ length) (h2 : length ≤ MAX_CODE_LENGTH) :
    generateRandomCode length bytes = .ok (rawCode length bytes)
      ∧ (rawCode length bytes).length = length
      ∧ ∀ c ∈ (rawCode length bytes).toList, c ∈ CHARACTER_SET.toList := by
  refine ⟨generateRandomCode_ok bytes ?_, rawCode_length _ _, ?_⟩
  · omega
  · exact rawCode_alphabet length bytes

/-- Witness for C7 at length 6 with the all-zero byte source. -/
theorem generateRandomCode_length_and_alphabet_witness :
    generateRandomCode 6 (fun _ => (0 : Fin 256))
        = .ok (rawCode 6 (fun _ => (0 : Fin 256)))
      ∧ (rawCode 6 (fun _ => (0 : Fin 256))).length = 6
      ∧ ∀ c ∈ (rawCode 6 (fun _ => (0 : Fin 256))).toList,
          c ∈ CHARACTER_SET.toList :=
  generateRandomCode_length_and_alphabet 6 _ (by decide) (by decide)

lemma listPrefixOf_append_self (pat rest : List Char) :
    listPrefixOf pat (pat ++ rest) = true := by
  induction pat with
  | nil => rfl
  | cons a as ih => simp [listPrefixOf, ih]

lemma containsStr_prefix (pat rest : String) :
    containsStr (pat ++ rest) pat = true := by
  unfold containsStr
  have : (pat ++ rest).toList = pat.toList ++ rest.toList := String.data_append pat rest
  rw [this]
  cases h : pat.toList ++ rest.toList with
  | nil => simp [containsSub, listPrefixOf_append_self] at h ⊢
           rcases h with ⟨h1, h2⟩
           simp [h1, listPrefixOf]
  | cons c cs =>
      rw [containsSub, ← h, listPrefixOf_append_self]
      simp

lemma genLoop_succ_notFound {length maxRetries : Nat} {bytes : Nat → Nat → Fin 256}
    {query : Nat → QueryOutcome} {fuel attempts : Nat} {le : Option String}
    (hlen : ¬(length < MIN_CODE_LENGTH ∨ length > MAX_CODE_LENGTH))
    (h : query (attempts + 1) = .notFound) :
    genLoop length maxRetries bytes query (fuel + 1) attempts le =
      { success := true, shortCode := some (rawCode length (bytes (attempts + 1))),
        error := none, attempts := attempts + 1 } := by
  simp only [genLoop, generateRandomCode_ok _ hlen, h, isCodeExists]

lemma genLoop_succ_found {length maxRetries : Nat} {bytes : Nat → Nat → Fin 256}
    {query : Nat → QueryOutcome} {fuel attempts : Nat} {le : Option String}
    (hlen : ¬(length < MIN_CODE_LENGTH ∨ length > MAX_CODE_LENGTH))
    (h : query (attempts + 1) = .found) :
    genLoop length maxRetries bytes query (fuel + 1) attempts le =
      genLoop length maxRetries bytes query fuel (attempts + 1)
        (some ("Code collision on attempt " ++ toString (attempts + 1))) := by
  simp only [genLoop, generateRandomCode_ok _ hlen, h, isCodeExists]

lemma genLoop_succ_error {length maxRetries : Nat} {bytes : Nat → Nat → Fin 256}
    {query : Nat → QueryOutcome} {fuel attempts : Nat} {le : Option String}
    {msg : String}
    (hlen : ¬(length < MIN_CODE_LENGTH ∨ length > MAX_CODE_LENGTH))
    (h : isCodeExists (query (attempts + 1)) = .error msg) :
    genLoop length maxRetries bytes query (fuel + 1) attempts le =
      (if containsStr msg "Database query failed"
          || containsStr msg "Database connection not available" then
        { success := false, shortCode := none,
          error := some ("Database error: " ++ msg), attempts := attempts + 1 }
      else
        genLoop length maxRetries bytes query fuel (attempts + 1) (some msg)) := by
  simp only [genLoop, generateRandomCode_ok _ hlen, h]

lemma genLoop_skip {length maxRetries : Nat} {bytes : Nat → Nat → Fin 256}
    {query : Nat → QueryOutcome}
    (hlen : ¬(length < MIN_CODE_LENGTH ∨ length > MAX_CODE_LENGTH)) :
    ∀ (N fuel attempts : Nat) (le : Option String),
      (∀ k, k < N → query (attempts + k + 1) = .found) → N ≤ fuel →
      ∃ le', genLoop length maxRetries bytes query fuel attempts le
           = genLoop length maxRetries bytes query (fuel - N) (attempts + N) le' := by
  intro N
  induction N with
  | zero => intro fuel attempts le _ _; exact ⟨le, by simp⟩
  | succ n ih =>
      intro fuel attempts le hq hle
      obtain ⟨f, rfl⟩ : ∃ f, fuel = f + 1 := ⟨fuel - 1, by omega⟩
      rw [genLoop_succ_found hlen (by simpa using hq 0 (by omega))]
      obtain ⟨le', hle'⟩ := ih f (attempts + 1) _
        (fun k hk => by
          have h := hq (k + 1) (by omega)
          have harith : attempts + 1 + k + 1 = attempts + (k + 1) + 1 := by omega
          rw [harith]; exact h)
        (by omega)
      refine ⟨le', ?_⟩
      rw [hle']
      have h1 : f - n = f + 1 - (n + 1) := by omega
      have h2 : attempts + 1 + n = attempts + (n + 1) := by omega
      rw [h1, h2]

/-- C5: with a valid configuration, when the store reports each of the first
`N` candidates as existing and the `(N+1)`-th as free (every existence query
succeeding), `generateUniqueShortCode` returns success carrying the free
candidate of attempt `N+1` with `attempts = N + 1`, for every
`N < maxRetries`. -/
theorem generateUniqueShortCode_success_after_collisions
    (length maxRetries N : Nat) (bytes : Nat → Nat → Fin 256)
    (query : Nat → QueryOutcome)
    (h1 : MIN_CODE_LENGTH ≤ length) (h2 : length ≤ MAX_CODE_LENGTH)
    (h3 : 1 ≤ maxRetries) (h4 : maxRetries ≤ 100)
    (h5 : N < maxRetries)
    (hcoll : ∀ k, 1 ≤ k → k ≤ N → query k = .found)
    (hfree : query (N + 1) = .notFound) :
    generateUniqueShortCode length maxRetries bytes query =
      { success := true, shortCode := some (rawCode length (bytes (N + 1))),
        error := none, attempts := N + 1 } := by
  have hlen : ¬(length < MIN_CODE_LENGTH ∨ length > MAX_CODE_LENGTH) := by omega
  have hretry : ¬(maxRetries < 1 ∨ maxRetries > 100) := by omega
  rw [generateUniqueShortCode, if_neg hlen, if_neg hretry]
  obtain ⟨le', hle'⟩ := genLoop_skip hlen N maxRetries 0 none
    (fun k hk => by simpa using hcoll (k + 1) (by omega) (by omega)) (by omega)
  rw [hle']
  obtain ⟨f, hf⟩ : ∃ f, maxRetries - N = f + 1 := ⟨maxRetries - N - 1, by omega⟩
  rw [hf, genLoop_succ_notFound hlen (by simpa using hfree)]
  simp

/-- Witness for C5: length 6, `maxRetries` 10, the first two candidates
collide and the third is free. -/
theorem generateUniqueShortCode_success_after_collisions_witness :
    generateUniqueShortCode 6 10 (fun _ _ => (0 : Fin 256))
        (fun k => if k ≤ 2 then .found else .notFound) =
      { success := true,
        shortCode := some (rawCode 6 (fun _ => (0 : Fin 256))),
        error := none, attempts := 3 } :=
  generateUniqueShortCode_success_after_collisions 6 10 2 _ _
    (by decide) (by decide) (by decide) (by decide) (by decide)
    (fun k hk1 hk2 => by
      have : k = 1 ∨ k = 2 := by omega
      rcases this with h | h <;> subst h <;> rfl)
    (by rfl)

/-- The all-zero random source. -/
def bytesZero : Nat → Nat → Fin 256 := fun _ _ => 0

/-- A store whose existence query throws an unexpected exception on the
first attempt (surfaced by `isCodeExists` as the generic
`Failed to check code existence` error) and finds the code free afterwards. -/
def queryC2 : Nat → QueryOutcome := fun k => if k = 1 then .thrown "boom" else .notFound

/-- Counterexample to C2 as stated: on the first attempt the store existence
query fails for a reason other than "not found" (`isCodeExists` surfaces an
error), yet the resolver does not abort with `attempts = 1`: it consumes the
attempt, retries, and returns success on attempt 2. -/
theorem generateUniqueShortCode_retries_past_unexpected_store_error :
    isCodeExists (queryC2 1) = .error "Failed to check code existence"
    ∧ generateUniqueShortCode 6 10 bytesZero queryC2 =
        { success := true, shortCode := some (rawCode 6 (bytesZero 2)),
          error := none, attempts := 2 } := by
  constructor
  · rfl
  · rfl

/-- C2 (amended): the resolver aborts immediately — without consuming the
remaining retries — exactly when the store existence query fails with an
error recognized as a database failure (a Supabase error object, surfaced as
`Database query failed: …`, or the missing-client error
`Database connection not available…`); a query failing on attempt `k` after
`k - 1` collisions yields a failure result with `attempts = k` (so a store
error of this kind on the first attempt yields `attempts = 1`). -/
theorem generateUniqueShortCode_fail_fast_on_db_error
    (length maxRetries k : Nat) (bytes : Nat → Nat → Fin 256)
    (query : Nat → QueryOutcome)
    (h1 : MIN_CODE_LENGTH ≤ length) (h2 : length ≤ MAX_CODE_LENGTH)
    (h3 : 1 ≤ maxRetries) (h4 : maxRetries ≤ 100)
    (hk1 : 1 ≤ k) (hk2 : k ≤ maxRetries)
    (hcoll : ∀ j, 1 ≤ j → j < k → query j = .found)
    (herr : (∃ m, query k = .dbError m) ∨ query k = .noAdmin) :
    (generateUniqueShortCode length maxRetries bytes query).success = false
    ∧ (generateUniqueShortCode length maxRetries bytes query).shortCode = none
    ∧ (generateUniqueShortCode length maxRetries bytes query).attempts = k := by
  have hlen : ¬(length < MIN_CODE_LENGTH ∨ length > MAX_CODE_LENGTH) := by omega
  have hretry : ¬(maxRetries < 1 ∨ maxRetries > 100) := by omega
  rw [generateUniqueShortCode, if_neg hlen, if_neg hretry]
  obtain ⟨le', hle'⟩ := genLoop_skip hlen (k - 1) maxRetries 0 none
    (fun j hj => by simpa using hcoll (j + 1) (by omega) (by omega)) (by omega)
  rw [hle']
  obtain ⟨f, hf⟩ : ∃ f, maxRetries - (k - 1) = f + 1 := ⟨maxRetries - k, by omega⟩
  rw [hf]
  have hatt : 0 + (k - 1) + 1 = k := by omega
  rcases herr with ⟨m, hm⟩ | hm
  · have hex : isCodeExists (query (0 + (k - 1) + 1)) =
        .error ("Database query failed: " ++ m) := by
      rw [hatt, hm]; rfl
    rw [genLoop_succ_error hlen hex]
    have heq : ("Database query failed: " ++ m : String) =
        ("Database query failed" : String) ++ (": " ++ m) := by
      rw [← String.append_assoc]; rfl
    have hc : containsStr ("Database query failed: " ++ m) "Database query failed"
        = true := by rw [heq]; exact containsStr_prefix _ _
    rw [if_pos (by rw [hc]; simp)]
    refine ⟨rfl, rfl, ?_⟩
    simpa using hatt
  · have hex : isCodeExists (query (0 + (k - 1) + 1)) =
        .error "Database connection not available. Missing service role key." := by
      rw [hatt, hm]; rfl
    rw [genLoop_succ_error hlen hex]
    have heq : ("Database connection not available. Missing service role key." : String) =
        ("Database connection not available" : String) ++ ". Missing service role key." := by
      rfl
    have hc : containsStr
        "Database connection not available. Missing service role key."
        "Database connection not available" = true := by
      rw [heq]; exact containsStr_prefix _ _
    rw [if_pos (by rw [hc]; simp)]
    refine ⟨rfl, rfl, ?_⟩
    simpa using hatt

/-- Witness for the amended C2: a recognized database error on the very first
attempt fails with `attempts = 1`. -/
theorem generateUniqueShortCode_fail_fast_on_db_error_witness :
    (generateUniqueShortCode 6 10 bytesZero (fun _ => .dbError "boom")).success = false
    ∧ (generateUniqueShortCode 6 10 bytesZero (fun _ => .dbError "boom")).shortCode = none
    ∧ (generateUniqueShortCode 6 10 bytesZero (fun _ => .dbError "boom")).attempts = 1 :=
  generateUniqueShortCode_fail_fast_on_db_error 6 10 1 bytesZero _
    (by decide) (by decide) (by decide) (by decide) (by decide) (by decide)
    (fun j hj1 hj2 => absurd hj2 (by omega))
    (Or.inl ⟨"boom", rfl⟩)

lemma checkRateLimit_pos {rl : RateLimitInfo} (now : Nat)
    (h : rl.remaining ≠ 0) : checkRateLimit rl now = .ok () := by
  unfold checkRateLimit
  rw [if_neg]
  omega

lemma checkRateLimit_zero {rl : RateLimitInfo} (now : Nat)
    (h : rl.remaining = 0) :
    checkRateLimit rl now =
      .error { message := "Rate limit exceeded. Try again in "
                 ++ toString (ceilWaitSeconds rl.resetTime now) ++ " seconds",
               code := "RATE_LIMIT_EXCEEDED" } := by
  unfold checkRateLimit
  rw [if_pos]
  omega

lemma checkCircuitBreaker_preserves {cb cb' : CircuitBreakerInfo} {now : Nat}
    (h : checkCircuitBreaker cb now = .ok cb') :
    cb'.failureCount = cb.failureCount := by
  unfold checkCircuitBreaker at h
  split at h
  · split at h
    · split at h
      · simp at h
      · injection h with h2; rw [← h2]
    · injection h with h2; rw [← h2]
  · injection h with h2; rw [← h2]

lemma checkUrls_blocked {maxU : Nat} {pOk : String → Bool} {st : ClientState}
    {now : Nat} {urls : List String} {net : NetOutcome} {e : SBError}
    (h1 : urls.length ≠ 0) (h2 : ¬ urls.length > maxU)
    (h3 : checkCircuitBreaker st.circuitBreaker now = .error e) :
    checkUrls maxU pOk st now urls net =
      { result := .error e, state := st, networkCalled := false } := by
  unfold checkUrls
  rw [if_neg h1, if_neg h2, h3]

lemma checkUrls_rate_limited {maxU : Nat} {pOk : String → Bool} {st : ClientState}
    {now : Nat} {urls : List String} {net : NetOutcome} {cb : CircuitBreakerInfo}
    (h1 : urls.length ≠ 0) (h2 : ¬ urls.length > maxU)
    (h3 : checkCircuitBreaker st.circuitBreaker now = .ok cb)
    (h4 : st.rateLimitInfo.remaining = 0) :
    checkUrls maxU pOk st now urls net =
      { result := .error { message := "Rate limit exceeded. Try again in "
                             ++ toString (ceilWaitSeconds st.rateLimitInfo.resetTime now)
                             ++ " seconds",
                           code := "RATE_LIMIT_EXCEEDED" },
        state := { st with circuitBreaker := cb }, networkCalled := false } := by
  unfold checkUrls
  rw [if_neg h1, if_neg h2, h3]
  simp only []
  rw [checkRateLimit_zero now h4]

lemma checkUrls_sanitize_failed {maxU : Nat} {pOk : String → Bool}
    {st : ClientState} {now : Nat} {urls : List String} {net : NetOutcome}
    {cb : CircuitBreakerInfo} {e : SBError}
    (h1 : urls.length ≠ 0) (h2 : ¬ urls.length > maxU)
    (h3 : checkCircuitBreaker st.circuitBreaker now = .ok cb)
    (h4 : st.rateLimitInfo.remaining ≠ 0)
    (h5 : mapExcept (sanitizeUrl pOk) urls = .error e) :
    checkUrls maxU pOk st now urls net =
      { result := .error e, state := { st with circuitBreaker := cb },
        networkCalled := false } := by
  unfold checkUrls
  rw [if_neg h1, if_neg h2, h3]
  simp only []
  rw [checkRateLimit_pos now h4, h5]

lemma checkUrls_dispatch {maxU : Nat} {pOk : String → Bool} {st : ClientState}
    {now : Nat} {urls : List String} {net : NetOutcome} {cb : CircuitBreakerInfo}
    {sArr : List String}
    (h1 : urls.length ≠ 0) (h2 : ¬ urls.length > maxU)
    (h3 : checkCircuitBreaker st.circuitBreaker now = .ok cb)
    (h4 : st.rateLimitInfo.remaining ≠ 0)
    (h5 : mapExcept (sanitizeUrl pOk) urls = .ok sArr) :
    checkUrls maxU pOk st now urls net =
      match makeApiCall st.rateLimitInfo now net with
      | (.error ce, rl) =>
          { result := .error (normalizeCallError ce),
            state := { rateLimitInfo := rl,
                       circuitBreaker := handleCircuitBreakerFailure cb now },
            networkCalled := true }
      | (.ok resp, rl) =>
          { result := .ok (parseResponse sArr resp now),
            state := { rateLimitInfo := rl, circuitBreaker := resetCircuitBreaker },
            networkCalled := true } := by
  unfold checkUrls
  rw [if_neg h1, if_neg h2, h3]
  simp only []
  rw [checkRateLimit_pos now h4, h5]

lemma mapExcept_ok_length {α β ε : Type} {f : α → Except ε β} :
    ∀ {xs : List α} {ys : List β}, mapExcept f xs = .ok ys →
      ys.length = xs.length := by
  intro xs
  induction xs with
  | nil =>
      intro ys h
      unfold mapExcept at h
      injection h with h2
      rw [← h2]
      rfl
  | cons a as ih =>
      intro ys h
      unfold mapExcept at h
      cases hfa : f a <;> rw [hfa] at h
      · simp at h
      · cases hrest : mapExcept f as <;> rw [hrest] at h
        · simp at h
        · injection h with h2
          rw [← h2]
          simp [ih hrest]

lemma mkThreatResult_url (u : String) (resp : SBResponse) (now : Nat) :
    (mkThreatResult u resp now).url = u := by
  unfold mkThreatResult
  split
  · rfl
  · split <;> rfl

lemma mkThreatResult_isSafe (u : String) (resp : SBResponse) (now : Nat) :
    (mkThreatResult u resp now).isSafe = ((urlThreatsFor u resp).length == 0) := by
  unfold mkThreatResult
  split
  · rename_i h; rw [baseResult]
  · split <;> rfl

lemma mkThreatResult_threats (u : String) (resp : SBResponse) (now : Nat) :
    (mkThreatResult u resp now).threats =
      (urlThreatsFor u resp).map (fun m =>
        { threatType := m.threatType, platform := m.platformType,
          description := getThreatDescription m.threatType }) := by
  unfold mkThreatResult
  split
  · rename_i h; rw [baseResult]
  · split <;> rfl

lemma mkThreatResult_isSafe_iff (u : String) (resp : SBResponse) (now : Nat) :
    (mkThreatResult u resp now).isSafe = true ↔
      ∀ m ∈ resp.matchList.getD [], m.threatUrl ≠ u := by
  rw [mkThreatResult_isSafe]
  simp [urlThreatsFor, List.length_eq_zero, List.filter_eq_nil_iff]

lemma mkThreatResult_safe_threats_nil (u : String) (resp : SBResponse) (now : Nat)
    (h : (mkThreatResult u resp now).isSafe = true) :
    (mkThreatResult u resp now).threats = [] := by
  rw [mkThreatResult_threats]
  rw [mkThreatResult_isSafe] at h
  simp only [beq_iff_eq, List.length_eq_zero] at h
  rw [h]
  rfl

/-- C6: with valid input (non-empty, within the per-request limit, all URLs
sanitizable) and a passing resilience layer, `checkUrls` on an ok response
returns exactly one `ThreatDetectionResult` per input URL, in input order
(the `i`-th result is a function of the `i`-th sanitized URL alone, so
duplicates are evaluated independently); a result's `isSafe` is true iff the
response's match list has no entry whose flagged URL equals that sanitized
URL exactly, and a safe result's threat list is empty. -/
theorem checkUrls_one_result_per_url (maxU : Nat) (pOk : String → Bool)
    (st : ClientState) (now : Nat) (urls : List String) (resp : SBResponse)
    (cb : CircuitBreakerInfo) (sArr : List String)
    (h1 : urls ≠ []) (h2 : urls.length ≤ maxU)
    (h3 : checkCircuitBreaker st.circuitBreaker now = .ok cb)
    (h4 : st.rateLimitInfo.remaining ≠ 0)
    (h5 : mapExcept (sanitizeUrl pOk) urls = .ok sArr) :
    (checkUrls maxU pOk st now urls (.ok resp)).result
        = .ok (parseResponse sArr resp now)
    ∧ (parseResponse sArr resp now).length = urls.length
    ∧ (∀ i : Nat, (parseResponse sArr resp now)[i]?
          = (sArr[i]?).map (fun u => mkThreatResult u resp now))
    ∧ (∀ u, (mkThreatResult u resp now).url = u)
    ∧ (∀ u, (mkThreatResult u resp now).isSafe = true ↔
          ∀ m ∈ resp.matchList.getD [], m.threatUrl ≠ u)
    ∧ (∀ u, (mkThreatResult u resp now).isSafe = true →
          (mkThreatResult u resp now).threats = []) := by
  have h1' : urls.length ≠ 0 := by
    intro hc; exact h1 (List.length_eq_zero.mp hc)
  have h2' : ¬ urls.length > maxU := by omega
  refine ⟨?_, ?_, ?_, fun u => mkThreatResult_url u resp now,
    fun u => mkThreatResult_isSafe_iff u resp now,
    fun u => mkThreatResult_safe_threats_nil u resp now⟩
  · rw [checkUrls_dispatch h1' h2' h3 h4 h5]
    rfl
  · rw [parseResponse, List.length_map, mapExcept_ok_length h5]
  · intro i
    rw [parseResponse, List.getElem?_map]

/-- A response carrying one malware match for an unrelated URL. -/
def respW : SBResponse :=
  { matchList := some [{ threatType := "MALWARE", platformType := "ANY_PLATFORM",
                         threatUrl := "http://evil.example.com",
                         cacheDuration := some "300s" }] }

/-- A freshly constructed client state (time 0). -/
def stW : ClientState :=
  { rateLimitInfo := initialRateLimitInfo 0, circuitBreaker := initialCircuitBreaker }

/-- Witness for C6 on one schemeless URL and a response flagging a different
URL. -/
theorem checkUrls_one_result_per_url_witness :
    (checkUrls 500 (fun _ => true) stW 5 ["example.com"] (.ok respW)).result
        = .ok (parseResponse ["http://example.com"] respW 5)
    ∧ (parseResponse ["http://example.com"] respW 5).length = (["example.com"] : List String).length
    ∧ (∀ i : Nat, (parseResponse ["http://example.com"] respW 5)[i]?
          = ((["http://example.com"] : List String)[i]?).map (fun u => mkThreatResult u respW 5))
    ∧ (∀ u, (mkThreatResult u respW 5).url = u)
    ∧ (∀ u, (mkThreatResult u respW 5).isSafe = true ↔
          ∀ m ∈ respW.matchList.getD [], m.threatUrl ≠ u)
    ∧ (∀ u, (mkThreatResult u respW 5).isSafe = true →
          (mkThreatResult u respW 5).threats = []) :=
  checkUrls_one_result_per_url 500 (fun _ => true) stW 5 ["example.com"] respW
    initialCircuitBreaker ["http://example.com"]
    (List.cons_ne_nil _ _) (by decide) rfl (by decide) rfl

lemma handleCBF_failureCount (cb : CircuitBreakerInfo) (now : Nat) :
    (handleCircuitBreakerFailure cb now).failureCount = cb.failureCount + 1 := by
  unfold handleCircuitBreakerFailure
  by_cases h : cb.failureCount + 1 ≥ 5 <;> simp [h]

lemma handleCBF_opens (cb : CircuitBreakerInfo) (now : Nat)
    (h : cb.failureCount + 1 ≥ 5) :
    (handleCircuitBreakerFailure cb now).state = .openS
    ∧ (handleCircuitBreakerFailure cb now).nextAttemptTime = some (now + 60000) := by
  unfold handleCircuitBreakerFailure
  simp [h]

/-- C3: the circuit breaker implements the specified state machine.
(1) The constructor starts CLOSED with zero failures.
(2) Every `checkUrls` call that reaches the network and fails increments
`failureCount`, and when the count reaches 5 the breaker becomes OPEN with
`nextAttemptTime` 60 seconds (60000 ms) ahead.
(3) While OPEN before `nextAttemptTime`, a call fails immediately with
`CIRCUIT_BREAKER_OPEN`, makes no network call, and leaves the state intact.
(4) Once `nextAttemptTime` is reached, `checkCircuitBreaker` lets the call
through, moving the breaker to HALF_OPEN.
(5) A successful call resets the breaker to CLOSED with `failureCount = 0`
from any state. -/
theorem circuit_breaker_state_machine :
    (initialCircuitBreaker.state = .closedS ∧ initialCircuitBreaker.failureCount = 0)
    ∧ (∀ (maxU : Nat) (pOk : String → Bool) (st : ClientState) (now : Nat)
         (urls : List String) (net : NetOutcome) (cb : CircuitBreakerInfo)
         (sArr : List String),
         urls.length ≠ 0 → urls.length ≤ maxU →
         checkCircuitBreaker st.circuitBreaker now = .ok cb →
         st.rateLimitInfo.remaining ≠ 0 →
         mapExcept (sanitizeUrl pOk) urls = .ok sArr →
         netFailed net = true →
         (checkUrls maxU pOk st now urls net).state.circuitBreaker.failureCount
             = st.circuitBreaker.failureCount + 1
         ∧ (st.circuitBreaker.failureCount + 1 ≥ 5 →
             (checkUrls maxU pOk st now urls net).state.circuitBreaker.state = .openS
             ∧ (checkUrls maxU pOk st now urls net).state.circuitBreaker.nextAttemptTime
                 = some (now + 60000)))
    ∧ (∀ (maxU : Nat) (pOk : String → Bool) (st : ClientState) (now : Nat)
         (urls : List String) (net : NetOutcome) (t : Nat),
         urls.length ≠ 0 → urls.length ≤ maxU →
         st.circuitBreaker.state = .openS →
         st.circuitBreaker.nextAttemptTime = some t → now < t →
         checkUrls maxU pOk st now urls net =
           { result := .error { message := "Service temporarily unavailable due to repeated failures",
                                code := "CIRCUIT_BREAKER_OPEN" },
             state := st, networkCalled := false })
    ∧ (∀ (cb : CircuitBreakerInfo) (now t : Nat), cb.state = .openS →
         cb.nextAttemptTime = some t → ¬ now < t →
         checkCircuitBreaker cb now = .ok { cb with state := .halfOpenS })
    ∧ (∀ (maxU : Nat) (pOk : String → Bool) (st : ClientState) (now : Nat)
         (urls : List String) (resp : SBResponse) (cb : CircuitBreakerInfo)
         (sArr : List String),
         urls.length ≠ 0 → urls.length ≤ maxU →
         checkCircuitBreaker st.circuitBreaker now = .ok cb →
         st.rateLimitInfo.remaining ≠ 0 →
         mapExcept (sanitizeUrl pOk) urls = .ok sArr →
         (checkUrls maxU pOk st now urls (.ok resp)).state.circuitBreaker
           = { state := .closedS, failureCount := 0,
               lastFailureTime := none, nextAttemptTime := none }) := by
  refine ⟨⟨rfl, rfl⟩, ?_, ?_, ?_, ?_⟩
  · intro maxU pOk st now urls net cb sArr h1 h2 h3 h4 h5 hnet
    have h2' : ¬ urls.length > maxU := by omega
    cases net with
    | ok resp => simp [netFailed] at hnet
    | netFail msg =>
        rw [checkUrls_dispatch h1 h2' h3 h4 h5]
        simp only [makeApiCall]
        refine ⟨?_, ?_⟩
        · rw [handleCBF_failureCount, checkCircuitBreaker_preserves h3]
        · intro hge
          rw [← checkCircuitBreaker_preserves h3] at hge
          exact handleCBF_opens cb now hge
    | httpFail status stext body =>
        rw [checkUrls_dispatch h1 h2' h3 h4 h5]
        simp only [makeApiCall]
        refine ⟨?_, ?_⟩
        · rw [handleCBF_failureCount, checkCircuitBreaker_preserves h3]
        · intro hge
          rw [← checkCircuitBreaker_preserves h3] at hge
          exact handleCBF_opens cb now hge
  · intro maxU pOk st now urls net t h1 h2 hstate hnext hlt
    have h2' : ¬ urls.length > maxU := by omega
    have hcb : checkCircuitBreaker st.circuitBreaker now =
        .error { message := "Service temporarily unavailable due to repeated failures",
                 code := "CIRCUIT_BREAKER_OPEN" } := by
      unfold checkCircuitBreaker
      simp [hstate, hnext, hlt]
    exact checkUrls_blocked h1 h2' hcb
  · intro cb now t hstate hnext hge
    unfold checkCircuitBreaker
    simp [hstate, hnext, hge]
  · intro maxU pOk st now urls resp cb sArr h1 h2 h3 h4 h5
    have h2' : ¬ urls.length > maxU := by omega
    rw [checkUrls_dispatch h1 h2' h3 h4 h5]
    rfl

/-- The client state of a tripped breaker (5 failures, cool-down until
t = 60000). -/
def stOpen : ClientState :=
  { rateLimitInfo := { remaining := 1000, resetTime := 60000, limit := 1000 },
    circuitBreaker := { state := .openS, failureCount := 5,
                        lastFailureTime := some 0, nextAttemptTime := some 60000 } }

/-- Witness for C3: a call at time 30000 (inside the cool-down) fails
immediately with `CIRCUIT_BREAKER_OPEN`, calls no network, and leaves the
state untouched. -/
theorem circuit_breaker_state_machine_witness :
    checkUrls 500 (fun _ => true) stOpen 30000 ["http://a.com"] (.ok respW)
      = { result := .error { message := "Service temporarily unavailable due to repeated failures",
                             code := "CIRCUIT_BREAKER_OPEN" },
          state := stOpen, networkCalled := false } :=
  circuit_breaker_state_machine.2.2.1 500 (fun _ => true) stOpen 30000
    ["http://a.com"] (.ok respW) 60000 (by decide) (by decide) rfl rfl (by decide)

/-- A client state whose rate-limit budget is exhausted (`remaining = 0`)
with a window that expired at time 100. -/
def stRL : ClientState :=
  { rateLimitInfo := { remaining := 0, resetTime := 100, limit := 1000 },
    circuitBreaker := initialCircuitBreaker }

/-- Counterexample to C4 as stated: the 60-second window has long elapsed
(`now = 200000 > resetTime = 100`), yet the next call is still rejected with
`RATE_LIMIT_EXCEEDED` — `remaining` is not reset to `limit` by the passing of
`resetTime`, because the reset lives in the rate-limit update that only runs
during a dispatched call, and no call can be dispatched once `remaining`
is 0. -/
theorem rate_limiter_no_recovery_after_window :
    stRL.rateLimitInfo.remaining = 0
    ∧ 200000 > stRL.rateLimitInfo.resetTime
    ∧ checkUrls 500 (fun _ => true) stRL 200000 ["http://a.com"] (.ok respW)
      = { result := .error { message := "Rate limit exceeded. Try again in -199 seconds",
                             code := "RATE_LIMIT_EXCEEDED" },
          state := stRL, networkCalled := false } :=
  ⟨rfl, by decide, rfl⟩

/-- C4 (amended): a `checkUrls` call attempted with `remaining ≤ 0` fails
immediately with `RateLimitExceeded` and a computed wait-time hint — it does
not block or queue, and this holds whether or not `resetTime` has passed
(once `remaining` reaches 0, later calls keep failing even after the window
elapses). `remaining` resets to `limit` (with a fresh 60-second window) only
inside the rate-limit update of a dispatched call when `now > resetTime`;
otherwise a dispatch just decrements `remaining`. -/
theorem rate_limiter_behavior :
    (∀ (maxU : Nat) (pOk : String → Bool) (st : ClientState) (now : Nat)
       (urls : List String) (net : NetOutcome) (cb : CircuitBreakerInfo),
       urls.length ≠ 0 → urls.length ≤ maxU →
       checkCircuitBreaker st.circuitBreaker now = .ok cb →
       st.rateLimitInfo.remaining = 0 →
       checkUrls maxU pOk st now urls net =
         { result := .error { message := "Rate limit exceeded. Try again in "
                                ++ toString (ceilWaitSeconds st.rateLimitInfo.resetTime now)
                                ++ " seconds",
                              code := "RATE_LIMIT_EXCEEDED" },
           state := { st with circuitBreaker := cb }, networkCalled := false })
    ∧ (∀ (rl : RateLimitInfo) (now : Nat), now > rl.resetTime →
        (updateRateLimitInfo rl now).remaining = rl.limit
        ∧ (updateRateLimitInfo rl now).resetTime = now + 60000)
    ∧ (∀ (rl : RateLimitInfo) (now : Nat), ¬ now > rl.resetTime →
        (updateRateLimitInfo rl now).remaining = rl.remaining - 1
        ∧ (updateRateLimitInfo rl now).resetTime = rl.resetTime) := by
  refine ⟨?_, ?_, ?_⟩
  · intro maxU pOk st now urls net cb h1 h2 h3 h4
    exact checkUrls_rate_limited h1 (by omega) h3 h4
  · intro rl now h
    unfold updateRateLimitInfo
    simp [h]
  · intro rl now h
    unfold updateRateLimitInfo
    simp [h]

/-- Witness for the amended C4: with `remaining = 0` and the window not yet
elapsed (now = 50 < resetTime = 100), the call fails immediately with the
computed one-second hint and an unchanged state. -/
theorem rate_limiter_behavior_witness :
    checkUrls 500 (fun _ => true) stRL 50 ["http://a.com"] (.ok respW)
      = { result := .error { message := "Rate limit exceeded. Try again in 1 seconds",
                             code := "RATE_LIMIT_EXCEEDED" },
          state := stRL, networkCalled := false } :=
  rate_limiter_behavior.1 500 (fun _ => true) stRL 50 ["http://a.com"]
    (.ok respW) initialCircuitBreaker (by decide) (by decide) rfl rfl

/-- C10: input-validation failures of `checkUrls` (empty sequence, too many
URLs, or a URL that fails sanitization) propagate their error without
touching the circuit breaker's `failureCount` or the rate limiter's
`remaining`, and without a network call; the failure count grows only when
the network path was actually entered (and the call failed). -/
theorem checkUrls_validation_frame (maxU : Nat) (pOk : String → Bool)
    (st : ClientState) (now : Nat) (urls : List String) (net : NetOutcome) :
    (urls = [] →
       checkUrls maxU pOk st now urls net =
         { result := .error { message := "No URLs provided for checking",
                              code := "INVALID_INPUT" },
           state := st, networkCalled := false })
    ∧ (urls.length > maxU →
       checkUrls maxU pOk st now urls net =
         { result := .error { message := "Too many URLs. Maximum " ++ toString maxU
                                ++ " allowed per request",
                              code := "TOO_MANY_URLS" },
           state := st, networkCalled := false })
    ∧ (∀ (cb : CircuitBreakerInfo) (e : SBError), urls.length ≤ maxU →
        checkCircuitBreaker st.circuitBreaker now = .ok cb →
        st.rateLimitInfo.remaining ≠ 0 →
        mapExcept (sanitizeUrl pOk) urls = .error e →
        (checkUrls maxU pOk st now urls net).result = .error e
        ∧ (checkUrls maxU pOk st now urls net).state.circuitBreaker.failureCount
            = st.circuitBreaker.failureCount
        ∧ (checkUrls maxU pOk st now urls net).state.rateLimitInfo
            = st.rateLimitInfo
        ∧ (checkUrls maxU pOk st now urls net).networkCalled = false)
    ∧ ((checkUrls maxU pOk st now urls net).state.circuitBreaker.failureCount
          > st.circuitBreaker.failureCount →
        (checkUrls maxU pOk st now urls net).networkCalled = true
        ∧ netFailed net = true) := by
  refine ⟨?_, ?_, ?_, ?_⟩
  · intro h
    subst h
    rfl
  · intro h
    have hz : urls.length ≠ 0 := by omega
    unfold checkUrls
    rw [if_neg hz, if_pos h]
  · intro cb e h2 h3 h4 h6
    have hz : urls.length ≠ 0 := by
      intro hc
      rw [List.length_eq_zero] at hc
      subst hc
      unfold mapExcept at h6
      simp at h6
    rw [checkUrls_sanitize_failed hz (by omega) h3 h4 h6]
    exact ⟨rfl, checkCircuitBreaker_preserves h3, rfl, rfl⟩
  · by_cases hz : urls.length = 0
    · have hout : checkUrls maxU pOk st now urls net =
          { result := .error { message := "No URLs provided for checking",
                               code := "INVALID_INPUT" },
            state := st, networkCalled := false } := by
        unfold checkUrls
        rw [if_pos hz]
      rw [hout]
      intro hgt
      simp only at hgt
      exact absurd hgt (by omega)
    · by_cases hm : urls.length > maxU
      · have hout : checkUrls maxU pOk st now urls net =
            { result := .error { message := "Too many URLs. Maximum " ++ toString maxU
                                   ++ " allowed per request",
                                 code := "TOO_MANY_URLS" },
              state := st, networkCalled := false } := by
          unfold checkUrls
          rw [if_neg hz, if_pos hm]
        rw [hout]
        intro hgt
        simp only at hgt
        exact absurd hgt (by omega)
      · cases hcb : checkCircuitBreaker st.circuitBreaker now with
        | error e =>
            rw [checkUrls_blocked hz hm hcb]
            intro hgt
            simp only at hgt
            exact absurd hgt (by omega)
        | ok cb =>
            have hfc := checkCircuitBreaker_preserves hcb
            by_cases hr : st.rateLimitInfo.remaining = 0
            · rw [checkUrls_rate_limited hz hm hcb hr]
              intro hgt
              simp only at hgt
              exact absurd hgt (by omega)
            · cases hmap : mapExcept (sanitizeUrl pOk) urls with
              | error e =>
                  rw [checkUrls_sanitize_failed hz hm hcb hr hmap]
                  intro hgt
                  simp only at hgt
                  exact absurd hgt (by omega)
              | ok sArr =>
                  rw [checkUrls_dispatch hz hm hcb hr hmap]
                  cases net with
                  | ok resp =>
                      intro hgt
                      simp only [makeApiCall] at hgt
                      exact absurd hgt (by
                        show ¬ resetCircuitBreaker.failureCount > _
                        simp [resetCircuitBreaker])
                  | netFail msg =>
                      intro _
                      exact ⟨rfl, rfl⟩
                  | httpFail status stext body =>
                      intro _
                      exact ⟨rfl, rfl⟩

/-- Witness for C10: the empty input is rejected with `INVALID_INPUT` and
the client state is untouched. -/
theorem checkUrls_validation_frame_witness :
    checkUrls 500 (fun _ => true) stW 5 [] (.ok respW) =
      { result := .error { message := "No URLs provided for checking",
                           code := "INVALID_INPUT" },
        state := stW, networkCalled := false } :=
  (checkUrls_validation_frame 500 (fun _ => true) stW 5 [] (.ok respW)).1 rfl

lemma listPrefixOf_iff (pat : List Char) :
    ∀ hay, listPrefixOf pat hay = true ↔ ∃ rest, hay = pat ++ rest := by
  induction pat with
  | nil =>
      intro hay
      simp [listPrefixOf]
  | cons a as ih =>
      intro hay
      cases hay with
      | nil => simp [listPrefixOf]
      | cons b bs =>
          simp only [listPrefixOf, Bool.and_eq_true, beq_iff_eq, ih,
            List.cons_append, List.cons.injEq]
          constructor
          · rintro ⟨rfl, rest, rfl⟩
            exact ⟨rest, rfl, rfl⟩
          · rintro ⟨rest, h1, h2⟩
            exact ⟨h1.symm, rest, h2⟩

lemma containsSub_iff (pat : List Char) :
    ∀ hay, containsSub pat hay = true ↔ ∃ p q, hay = p ++ pat ++ q := by
  intro hay
  induction hay with
  | nil =>
      rw [containsSub, listPrefixOf_iff]
      constructor
      · rintro ⟨rest, h⟩
        exact ⟨[], rest, by simpa using h⟩
      · rintro ⟨p, q, h⟩
        rw [List.append_assoc] at h
        rcases List.append_eq_nil.mp h.symm with ⟨rfl, h2⟩
        rcases List.append_eq_nil.mp h2 with ⟨rfl, rfl⟩
        exact ⟨[], rfl⟩
  | cons c cs ih =>
      rw [containsSub, Bool.or_eq_true, listPrefixOf_iff, ih]
      constructor
      · rintro (⟨rest, h⟩ | ⟨p, q, h⟩)
        · exact ⟨[], rest, by simpa using h⟩
        · exact ⟨c :: p, q, by simp [h]⟩
      · rintro ⟨p, q, h⟩
        cases p with
        | nil => exact Or.inl ⟨q, by simpa using h⟩
        | cons x xs =>
            right
            rw [List.cons_append, List.cons_append] at h
            injection h with h1 h2
            exact ⟨xs, q, h2⟩

/-- `pat` occurs (case-insensitively) somewhere in `s`: the spec-side reading
of the blocklist regex `/pat/i.test(s)` for a lowercase literal `pat`. -/
def HasSubCI (pat s : String) : Prop :=
  ∃ p q, s.toList.map Char.toLower = p ++ pat.toList ++ q

lemma containsCI_iff (s pat : String) :
    containsCI s pat = true ↔ HasSubCI pat s := by
  rw [containsCI, containsSub_iff]
  rfl

/-- The platform URL parser restricted to the two URLs used in the C8
scenarios (`new URL` succeeds on both; values are what the browser's `URL`
object reports). -/
def parseC8 : String → Option UrlParts := fun s =>
  if s = "https://example.com/data:page" then
    some { origin := "https://example.com", protocol := "https:" }
  else if s = "https://ok.example.org/page" then
    some { origin := "https://ok.example.org", protocol := "https:" }
  else none

/-- Counterexample to C8 as stated: `https://example.com/data:page` is
parseable, its origin differs from the request origin, and its scheme
(`https:`) is not on the blocklist — yet `isSecureUrl` rejects it, because
the blocklist regexes are tested against the whole URL string and the path
contains `data:`. -/
theorem isSecureUrl_rejects_non_blocklisted_scheme :
    isSecureUrl parseC8 "https://example.com/data:page" "https://short.example.com"
        = false
    ∧ parseC8 "https://example.com/data:page"
        = some { origin := "https://example.com", protocol := "https:" }
    ∧ ("https://example.com" : String) ≠ "https://short.example.com"
    ∧ ("https:" : String) ∉ suspiciousPatterns :=
  ⟨rfl, rfl, by decide, by decide⟩

/-- C8 (amended): `isSecureUrl` rejects a parseable candidate URL exactly
when the URL's origin equals the request's own origin, or one of the
blocklist tokens `javascript:`, `data:`, `vbscript:`, `file:`, `ftp:` occurs
case-insensitively anywhere in the URL string (not only as its scheme);
every other parseable candidate passes. -/
theorem isSecureUrl_characterization (parse : String → Option UrlParts)
    (url requestOrigin : String) (u : UrlParts)
    (hparse : parse url = some u) :
    isSecureUrl parse url requestOrigin = false ↔
      (u.origin = requestOrigin
        ∨ ∃ pat ∈ suspiciousPatterns, HasSubCI pat url) := by
  unfold isSecureUrl
  rw [hparse]
  by_cases ho : u.origin = requestOrigin
  · simp [ho]
  · simp [ho, List.any_eq_true, containsCI_iff]

/-- Witness for the amended C8 at a URL containing no blocklist token. -/
theorem isSecureUrl_characterization_witness :
    isSecureUrl parseC8 "https://ok.example.org/page" "https://short.example.com"
        = false ↔
      (({ origin := "https://ok.example.org", protocol := "https:" } : UrlParts).origin
          = "https://short.example.com"
        ∨ ∃ pat ∈ suspiciousPatterns, HasSubCI pat "https://ok.example.org/page") :=
  isSecureUrl_characterization parseC8 "https://ok.example.org/page"
    "https://short.example.com"
    { origin := "https://ok.example.org", protocol := "https:" } rfl

/-- C9: the redirect handler issues a 307 redirect only to a stored URL that
itself re-validates as well-formed; a stored URL that fails re-validation
yields 500 with no redirect; a code absent from the store yields 404 with no
redirect and no click-count increment attempted. -/
theorem redirectGET_safety (validUrl : String → Bool) (adminOk : Bool)
    (shortId : String) (lookup : LookupOutcome) :
    (∀ u, (redirectGET validUrl adminOk shortId lookup).redirectTo = some u →
        validUrl u = true
        ∧ (redirectGET validUrl adminOk shortId lookup).status = 307)
    ∧ (∀ u, ¬ (shortId.length < 4 ∨ shortId.length > 8) → adminOk = true →
        lookup = .row u → u ≠ "" → validUrl u = false →
        redirectGET validUrl adminOk shortId lookup =
          { status := 500, redirectTo := none, incrementAttempted := false })
    ∧ (¬ (shortId.length < 4 ∨ shortId.length > 8) → adminOk = true →
        lookup = .notFoundErr →
        redirectGET validUrl adminOk shortId lookup =
          { status := 404, redirectTo := none, incrementAttempted := false }) := by
  refine ⟨?_, ?_, ?_⟩
  · intro u h
    unfold redirectGET at h ⊢
    by_cases hfmt : shortId.length < 4 ∨ shortId.length > 8
    · rw [if_pos hfmt] at h; simp at h
    · rw [if_neg hfmt] at h ⊢
      by_cases hadm : ¬ adminOk
      · rw [if_pos hadm] at h; simp at h
      · rw [if_neg hadm] at h ⊢
        cases lookup with
        | notFoundErr => simp at h
        | dbErr m => simp at h
        | row longUrl =>
            dsimp only at h ⊢
            by_cases hne : longUrl = ""
            · rw [if_pos hne] at h; simp at h
            · rw [if_neg hne] at h ⊢
              by_cases hv : ¬ validUrl longUrl
              · rw [if_pos hv] at h; simp at h
              · rw [if_neg hv] at h ⊢
                simp only at h
                injection h with h2
                subst h2
                exact ⟨not_not.mp hv, rfl⟩
  · intro u hfmt hadmin hrow hne hval
    subst hrow
    unfold redirectGET
    rw [if_neg hfmt, if_neg (by simp [hadmin])]
    dsimp only
    rw [if_neg hne, if_pos (by simp [hval])]
  · intro hfmt hadmin hnf
    subst hnf
    unfold redirectGET
    rw [if_neg hfmt, if_neg (by simp [hadmin])]

/-- Witness for C9: a well-formed code absent from the store yields 404,
no redirect, no increment. -/
theorem redirectGET_safety_witness :
    redirectGET (fun _ => true) true "abc123" .notFoundErr =
      { status := 404, redirectTo := none, incrementAttempted := false } :=
  (redirectGET_safety (fun _ => true) true "abc123" .notFoundErr).2.2
    (by decide) rfl rfl

/-- The platform URL parser for the C1 scenario: `new URL` succeeds on the
submitted URL, whose origin differs from the service's own. -/
def parseC1 : String → Option UrlParts := fun s =>
  if s = "http://malware.example.com" then
    some { origin := "http://malware.example.com", protocol := "http:" }
  else none

/-- C1 (evaluation at the failing input): the `POST /api/shorten` handler
takes no threat-check collaborator at all — `shortenPOST` has no parameter
for a threat verdict — and for a syntactically valid, secure URL it proceeds
directly from the security check to code generation, storage, and a 200
response carrying the short URL.  Whatever the Safe Browsing API would say
about `http://malware.example.com`, the mapping is stored and the short URL
returned: no threat check gates the creation flow. -/
theorem shortenPOST_returns_short_url_without_threat_check :
    shortenPOST parseC1 false (some "http://malware.example.com")
        "https://short.example.com" "https://short.example.com" true
        { success := true, shortCode := some "Ab3xY9", error := none, attempts := 1 }
        none
      = { status := 200, success := true,
          shortUrl := some "https://short.example.com/Ab3xY9",
          shortCode := some "Ab3xY9" } := rfl
